import Mathlib

/-!
Shallow embedding of the `tapp-ai/json-go-optional` repository: a tri-state
optional container (Absent / ExplicitNull / Present) with a JSON transcoding
contract.  The repository ships three near-identical variants:

* `OptV1` — package `optional` (`option.go` + `sql_driver.go`): a struct with a
  payload slot and an explicit three-way `State` tag.
* `OptV2` — package `jsonoptional` (`jsonoptional/optional.go`): a `map[bool]T`
  with the two reserved keys `true` (present value) and `false` (explicit
  null); the empty map is the absent state.  The map is modelled as its two
  possible entries, `atTrue` and `atFalse`.
* `OptV3` — package `jsongooptional` (the unnamed source file): a struct
  variant with its own marshalling logic.

Go conventions carried over: the zero value of a type parameter `T` is
`default` of an `Inhabited` instance; a Go `*T` pointer is `Option T`
(`none` = nil); a Go `error` result is `Option GoErr` (`none` = nil error);
JSON byte slices are `String`s, with a `nil` byte slice (as distinct from an
empty one) modelled as `none : Option String` where the distinction matters.
`encoding/json`'s generic marshal/unmarshal for the payload type are
parameters `enc : T → String` and `dec : String → Except GoErr T`.
-/

/-- Errors appearing in the repository: the two sentinel error values plus an
abstract decode error standing for whatever error the payload type's decoder
produced (the Option layer only passes it through). -/
inductive GoErr where
  | errNoneValueTaken
  | errSQLScannerIncompatibleDataType
  | decodeErr (msg : String)
deriving DecidableEq

namespace OptV1

/-- `State` of package `optional`: `NoneState` (field omitted), `NullState`
(field explicitly null), `SomeState` (field has a non-null value). -/
inductive State where
  | NoneState
  | NullState
  | SomeState
deriving DecidableEq

/-- `Option[T]` of package `optional`: a payload slot plus a state tag. -/
structure Opt (T : Type) where
  value : T
  state : State
deriving DecidableEq

/-- `NullBytes` of package `optional`. -/
def NullBytes : String := "null"

/-- `Some` constructor. -/
def Some {T : Type} (v : T) : Opt T :=
  { value := v, state := State.SomeState }

/-- `None` constructor; the payload slot is zero-initialized by Go. -/
def None {T : Type} [Inhabited T] : Opt T :=
  { value := default, state := State.NoneState }

/-- `JsonNull` constructor; the payload slot is zero-initialized by Go. -/
def JsonNull {T : Type} [Inhabited T] : Opt T :=
  { value := default, state := State.NullState }

/-- `FromNillable`: Go `*T` is modelled as `Option T`. -/
def FromNillable {T : Type} [Inhabited T] (v : Option T) : Opt T :=
  match v with
  | Option.none => None
  | Option.some x => Some x

/-- `PtrFromNillable`: keeps the pointer (modelled `Option T`) as payload. -/
def PtrFromNillable {T : Type} (v : Option T) : Opt (Option T) :=
  match v with
  | Option.none => None
  | Option.some x => Some (Option.some x)

end OptV1

namespace OptV1.Opt

/-- `IsSome`: `o.state == SomeState`. -/
def IsSome {T : Type} (o : Opt T) : Bool :=
  o.state == State.SomeState

/-- `IsNone` as written in the source: its body compares against `NullState`
(option.go line 86), not `NoneState`. -/
def IsNone {T : Type} (o : Opt T) : Bool :=
  o.state == State.NullState

/-- `IsJsonNull`: `o.state == NullState`. -/
def IsJsonNull {T : Type} (o : Opt T) : Bool :=
  o.state == State.NullState

/-- `Unwrap`. -/
def Unwrap {T : Type} [Inhabited T] (o : Opt T) : T :=
  if o.IsNone || o.IsJsonNull then default else o.value

/-- `UnwrapAsPtr`; the returned `*T` is modelled as `Option T`. -/
def UnwrapAsPtr {T : Type} (o : Opt T) : Option T :=
  if o.IsNone || o.IsJsonNull then Option.none else Option.some o.value

/-- `Take`: Go's `(T, error)` result is `T × Option GoErr`. -/
def Take {T : Type} [Inhabited T] (o : Opt T) : T × Option GoErr :=
  if o.IsNone || o.IsJsonNull then (default, Option.some GoErr.errNoneValueTaken)
  else (o.value, Option.none)

/-- `TakeOr`. -/
def TakeOr {T : Type} (o : Opt T) (fallbackValue : T) : T :=
  if o.IsNone || o.IsJsonNull then fallbackValue else o.value

/-- `TakeOrElse`. -/
def TakeOrElse {T : Type} (o : Opt T) (fallbackFunc : Unit → T) : T :=
  if o.IsNone || o.IsJsonNull then fallbackFunc () else o.value

/-- `TakeOrElse` instrumented with the number of times the fallback function
is invoked along the taken control path (the source calls it at exactly one
syntactic site, inside the first branch). -/
def TakeOrElseTraced {T : Type} (o : Opt T) (fallbackFunc : Unit → T) : T × Nat :=
  if o.IsNone || o.IsJsonNull then (fallbackFunc (), 1) else (o.value, 0)

/-- `Or`. -/
def Or {T : Type} (o : Opt T) (fallbackOptionValue : Opt T) : Opt T :=
  if o.IsNone || o.IsJsonNull then fallbackOptionValue else o

/-- `OrElse`. -/
def OrElse {T : Type} (o : Opt T) (fallbackOptionFunc : Unit → Opt T) : Opt T :=
  if o.IsNone || o.IsJsonNull then fallbackOptionFunc () else o

/-- `OrElse` instrumented with the number of fallback invocations. -/
def OrElseTraced {T : Type} (o : Opt T) (fallbackOptionFunc : Unit → Opt T) : Opt T × Nat :=
  if o.IsNone || o.IsJsonNull then (fallbackOptionFunc (), 1) else (o, 0)

/-- `Filter`: `if o.IsNone() || o.IsJsonNull() || !predicate(o.value) { return None } return o`. -/
def Filter {T : Type} [Inhabited T] (o : Opt T) (predicate : T → Bool) : Opt T :=
  if o.IsNone || o.IsJsonNull || !predicate o.value then None else o

/-- `Filter` instrumented with the number of predicate invocations, following
the source's short-circuit evaluation: the predicate is evaluated only when
both `IsNone` and `IsJsonNull` are false. -/
def FilterTraced {T : Type} [Inhabited T] (o : Opt T) (predicate : T → Bool) : Opt T × Nat :=
  if o.IsNone || o.IsJsonNull then (None, 0)
  else if !predicate o.value then (None, 1)
  else (o, 1)

/-- `MarshalJSON`: returns `(nil, nil)` (the omission signal, modelled as
`none`) when `IsNone`, `NullBytes` when `IsJsonNull`, otherwise the marshalled
payload.  `enc` stands for `json.Marshal` at the payload type. -/
def MarshalJSON {T : Type} (enc : T → String) (o : Opt T) : Option String × Option GoErr :=
  if o.IsNone then (Option.none, Option.none)
  else if o.IsJsonNull then (Option.some NullBytes, Option.none)
  else (Option.some (enc o.value), Option.none)

/-- `UnmarshalJSON`: Go mutates the receiver, modelled as returning the new
Option value or the propagated decode error.  `dec` stands for
`json.Unmarshal` at the payload type. -/
def UnmarshalJSON {T : Type} [Inhabited T] (dec : String → Except GoErr T)
    (data : String) : Except GoErr (Opt T) :=
  if data.length ≤ 0 then Except.ok None
  else if data = NullBytes then Except.ok JsonNull
  else
    match dec data with
    | Except.error e => Except.error e
    | Except.ok v => Except.ok (Some v)

end OptV1.Opt

namespace OptV1

/-- Dynamic values handed to `database/sql`'s `Scan`, classified by their Go
dynamic type.  The six constructors other than `dother` are the storage
primitives matched by the type switch in `sql_driver.go`; `dother` stands for
a value of any other dynamic type.  A `time.Time` is abstracted to its
nanosecond count and a `float64` to its bit pattern (no claim inspects
either payload). -/
inductive GoDyn where
  | dstring (s : String)
  | dbytes (bs : List Nat)
  | dint64 (i : Int)
  | dfloat64 (bits : Nat)
  | dbool (b : Bool)
  | dtime (nanos : Int)
  | dother
deriving DecidableEq

/-- Whether a dynamic value matches one of the cases of the type switch
`case string, []byte, int64, float64, bool, time.Time` in `sql_driver.go`. -/
def isSupportedSQLType : GoDyn → Bool
  | GoDyn.dstring _ => true
  | GoDyn.dbytes _ => true
  | GoDyn.dint64 _ => true
  | GoDyn.dfloat64 _ => true
  | GoDyn.dbool _ => true
  | GoDyn.dtime _ => true
  | GoDyn.dother => false

/-- Outcome of `Scan`: the receiver is assigned and a nil error returned, an
error value is returned, or the goroutine panics. -/
inductive ScanOutcome (T : Type) where
  | assigned (o : Opt T)
  | errored (e : GoErr)
  | panicked
deriving DecidableEq

/-- `Scan` of `sql_driver.go`.  `src : Option GoDyn` models the `any`
argument (`none` = nil interface).  `typeAssert` models Go's unchecked type
assertion `src.(T)`: it must yield `some` exactly when the dynamic value's
type is `T`; the source uses the single-result assertion form, which panics
when the assertion fails — modelled by the `panicked` outcome. -/
def Opt.Scan {T : Type} [Inhabited T] (typeAssert : GoDyn → Option T)
    (src : Option GoDyn) : ScanOutcome T :=
  match src with
  | Option.none => ScanOutcome.assigned None
  | Option.some d =>
    if isSupportedSQLType d then
      match typeAssert d with
      | Option.some v => ScanOutcome.assigned (Some v)
      | Option.none => ScanOutcome.panicked
    else ScanOutcome.errored GoErr.errSQLScannerIncompatibleDataType

/-- Go's `src.(string)` type assertion: succeeds exactly on values whose
dynamic type is `string`. -/
def castString : GoDyn → Option String
  | GoDyn.dstring s => Option.some s
  | _ => Option.none

end OptV1

namespace OptV2

/-- `Option[T]` of package `jsonoptional` is `map[bool]T`.  A map over `Bool`
is determined by its (possibly missing) entries at the two keys: `atTrue` is
the entry at key `true` (the present value), `atFalse` the entry at key
`false` (the explicit-null marker). -/
structure Opt (T : Type) where
  atTrue : Option T
  atFalse : Option T
deriving DecidableEq

/-- `NullBytes` of package `jsonoptional`. -/
def NullBytes : String := "null"

/-- Go's `len` of the underlying map: the number of keys with an entry. -/
def len {T : Type} (o : Opt T) : Nat :=
  (if o.atTrue.isSome then 1 else 0) + (if o.atFalse.isSome then 1 else 0)

/-- Go's map indexing `o[true]`: the entry at `true`, or the zero value of
`T` when the key is missing. -/
def Opt.getTrue {T : Type} [Inhabited T] (o : Opt T) : T :=
  o.atTrue.getD default

/-- `Some`: the one-entry map `{true: v}`. -/
def Some {T : Type} (v : T) : Opt T :=
  { atTrue := Option.some v, atFalse := Option.none }

/-- `None`: the empty map. -/
def None {T : Type} : Opt T :=
  { atTrue := Option.none, atFalse := Option.none }

/-- `Null`: the one-entry map `{false: zero value}`. -/
def Null {T : Type} [Inhabited T] : Opt T :=
  { atTrue := Option.none, atFalse := Option.some default }

/-- `NullIf`. -/
def NullIf {T : Type} [Inhabited T] (v : T) (cond : Bool) : Opt T :=
  if cond then Null else Some v

/-- `FromNillable`; Go `*T` is modelled as `Option T`. -/
def FromNillable {T : Type} (v : Option T) : Opt T :=
  match v with
  | Option.none => None
  | Option.some x => Some x

/-- `PtrFromNillable`. -/
def PtrFromNillable {T : Type} (v : Option T) : Opt (Option T) :=
  match v with
  | Option.none => None
  | Option.some x => Some (Option.some x)

end OptV2

namespace OptV2.Opt

/-- `IsSome`: false on the empty map, else whether key `true` has an entry. -/
def IsSome {T : Type} (o : Opt T) : Bool :=
  if len o == 0 then false else o.atTrue.isSome

/-- `IsNone`: whether the map is empty. -/
def IsNone {T : Type} (o : Opt T) : Bool :=
  len o == 0

/-- `IsNull`: false on the empty map, else whether key `false` has an entry. -/
def IsNull {T : Type} (o : Opt T) : Bool :=
  if len o == 0 then false else o.atFalse.isSome

/-- `Unwrap`. -/
def Unwrap {T : Type} [Inhabited T] (o : Opt T) : T :=
  if o.IsNone || o.IsNull then default else o.getTrue

/-- `UnwrapAsPtr`. -/
def UnwrapAsPtr {T : Type} [Inhabited T] (o : Opt T) : Option T :=
  if o.IsNone || o.IsNull then Option.none else Option.some o.getTrue

/-- `Take`: only `IsNone` produces the error; a `Null` receiver falls through
to `Unwrap` (its doc: "If Option value is Null, this returns the default
value"). -/
def Take {T : Type} [Inhabited T] (o : Opt T) : T × Option GoErr :=
  if o.IsNone then (default, Option.some GoErr.errNoneValueTaken)
  else (o.Unwrap, Option.none)

/-- `TakeOr`. -/
def TakeOr {T : Type} [Inhabited T] (o : Opt T) (fallbackValue : T) : T :=
  if o.IsNone then fallbackValue else o.Unwrap

/-- `TakeOrElse`. -/
def TakeOrElse {T : Type} [Inhabited T] (o : Opt T) (fallbackFunc : Unit → T) : T :=
  if o.IsNone then fallbackFunc () else o.Unwrap

/-- `TakeOrElse` instrumented with the number of fallback invocations. -/
def TakeOrElseTraced {T : Type} [Inhabited T] (o : Opt T) (fallbackFunc : Unit → T) : T × Nat :=
  if o.IsNone then (fallbackFunc (), 1) else (o.Unwrap, 0)

/-- `Or`. -/
def Or {T : Type} (o : Opt T) (fallbackOptionValue : Opt T) : Opt T :=
  if o.IsNone then fallbackOptionValue else o

/-- `Filter`: `if o.IsNone() || !predicate(o.Unwrap()) { return None } return o`. -/
def Filter {T : Type} [Inhabited T] (o : Opt T) (predicate : T → Bool) : Opt T :=
  if o.IsNone || !predicate o.Unwrap then None else o

/-- `Filter` instrumented with the number of predicate invocations, following
the source's short-circuit evaluation: the predicate is evaluated whenever
`IsNone` is false (including on a `Null` receiver, where `Unwrap` yields the
zero value). -/
def FilterTraced {T : Type} [Inhabited T] (o : Opt T) (predicate : T → Bool) : Opt T × Nat :=
  if o.IsNone then (None, 0)
  else if !predicate o.Unwrap then (None, 1)
  else (o, 1)

/-- `MarshalJSON`: `NullBytes` when `IsNull`, otherwise `json.Marshal(o[true])`
(this variant never returns the nil omission signal; its comment delegates
omission of the absent state to `omitempty` on the empty map). -/
def MarshalJSON {T : Type} [Inhabited T] (enc : T → String) (o : Opt T) : String :=
  if o.IsNull then NullBytes else enc o.getTrue

/-- `UnmarshalJSON`: no zero-length branch (its comment: "if field is
unspecified, UnmarshalJSON won't be called"); `null` produces `Null`,
anything else is decoded as `T`. -/
def UnmarshalJSON {T : Type} [Inhabited T] (dec : String → Except GoErr T)
    (data : String) : Except GoErr (Opt T) :=
  if data = NullBytes then Except.ok Null
  else
    match dec data with
    | Except.error e => Except.error e
    | Except.ok v => Except.ok (Some v)

/-- Well-formedness of the map representation: at most one of the two
reserved keys has an entry.  This is the reachable-shape invariant of the
`jsonoptional` package, not a source function. -/
def wf {T : Type} (o : Opt T) : Bool :=
  !(o.atTrue.isSome && o.atFalse.isSome)

end OptV2.Opt

namespace OptV3

/-- `State` of package `jsongooptional`. -/
inductive State where
  | NoneState
  | NullState
  | SomeState
deriving DecidableEq

/-- `Option[T]` of package `jsongooptional`. -/
structure Opt (T : Type) where
  value : T
  state : State
deriving DecidableEq

/-- `Some` constructor. -/
def Some {T : Type} (v : T) : Opt T :=
  { value := v, state := State.SomeState }

/-- `None` constructor (explicitly zeroed payload). -/
def None {T : Type} [Inhabited T] : Opt T :=
  { value := default, state := State.NoneState }

/-- `Null` constructor (explicitly zeroed payload). -/
def Null {T : Type} [Inhabited T] : Opt T :=
  { value := default, state := State.NullState }

end OptV3

namespace OptV3.Opt

/-- `IsSome`. -/
def IsSome {T : Type} (o : Opt T) : Bool :=
  o.state == State.SomeState

/-- `IsNone` as written in the source: its body compares against `NullState`. -/
def IsNone {T : Type} (o : Opt T) : Bool :=
  o.state == State.NullState

/-- `IsNull`. -/
def IsNull {T : Type} (o : Opt T) : Bool :=
  o.state == State.NullState

/-- `MarshalJSON` of `jsongooptional`: the null state marshals the zero value
of `T`, the none state marshals Go `nil` (which `json.Marshal` renders as the
`null` token), and otherwise the payload is marshalled. -/
def MarshalJSON {T : Type} [Inhabited T] (enc : T → String) (o : Opt T) : String :=
  if o.state == State.NullState then enc default
  else if o.state == State.NoneState then "null"
  else enc o.value

/-- `UnmarshalJSON` of `jsongooptional`: `null` produces `Null`, anything
else is decoded as `T`; there is no zero-length branch. -/
def UnmarshalJSON {T : Type} [Inhabited T] (dec : String → Except GoErr T)
    (data : String) : Except GoErr (Opt T) :=
  if data = "null" then Except.ok Null
  else
    match dec data with
    | Except.error e => Except.error e
    | Except.ok v => Except.ok (Some v)

end OptV3.Opt

/-- Concrete payload codec used to evaluate the embedding: the JSON encoding
of an integer. -/
def intEnc : Int → String := fun n => toString n

/-- Concrete payload decoder for integers, accepting just the encoding of 3
(sufficient for the concrete instantiations below; any rejected input stands
for a decode failure of the payload type). -/
def dec3 : String → Except GoErr Int :=
  fun s => if s = "3" then Except.ok 3 else Except.error (GoErr.decodeErr s)

/-- Encoder of a payload type whose sole value serializes to the `null` token
(as Go's nil pointer types do under `encoding/json`). -/
def unitEnc : Unit → String := fun _ => "null"

/-- Decoder inverse to `unitEnc`: accepts exactly the `null` token. -/
def unitDec : String → Except GoErr Unit :=
  fun s => if s = "null" then Except.ok () else Except.error (GoErr.decodeErr s)

/-- C1: the claim says every variant's MarshalJSON signals omission for the
Absent state.  In the `optional` struct variant, `IsNone` matches `NullState`,
so a `None` value falls through to the value branch and `MarshalJSON` returns
the zero value's encoding (here `"0"`), not the nil omission signal; in the
`jsongooptional` variant, `MarshalJSON` of `None` emits the `null` token.
The claim fails on the code at these inputs. -/
theorem c1_marshal_none_not_omitted :
    OptV1.Opt.MarshalJSON intEnc (OptV1.None : OptV1.Opt Int) =
      (Option.some (intEnc 0), Option.none) ∧
    Option.some (intEnc 0) ≠ (Option.none : Option String) ∧
    OptV3.Opt.MarshalJSON intEnc (OptV3.None : OptV3.Opt Int) = "null" :=
  ⟨rfl, by simp, rfl⟩

/-- C2: the claim says every variant marshals the ExplicitNull state to the
literal `null` token.  In the `optional` struct variant, the `IsNone` branch
(which matches `NullState`) fires first and `MarshalJSON` of `JsonNull`
returns the nil omission signal, not `null`; in the `jsongooptional` variant
it returns the zero value's encoding.  Only the `jsonoptional` map variant
emits `null`. -/
theorem c2_marshal_null_divergence :
    OptV1.Opt.MarshalJSON intEnc (OptV1.JsonNull : OptV1.Opt Int) =
      (Option.none, Option.none) ∧
    (Option.none : Option String) ≠ Option.some "null" ∧
    OptV3.Opt.MarshalJSON intEnc (OptV3.Null : OptV3.Opt Int) = intEnc 0 ∧
    intEnc 0 ≠ "null" ∧
    OptV2.Opt.MarshalJSON intEnc (OptV2.Null : OptV2.Opt Int) = "null" :=
  ⟨rfl, by simp, rfl, by decide, rfl⟩

/-- C3: the claim says exactly one of the three predicates holds for every
constructed value.  In the struct variants (`optional` and `jsongooptional`)
`IsNone` tests `NullState`, so a `None` value satisfies none of the three
predicates and a `JsonNull`/`Null` value satisfies two of them. -/
theorem c3_exclusivity_violated :
    OptV1.Opt.IsSome (OptV1.None : OptV1.Opt Int) = false ∧
    OptV1.Opt.IsNone (OptV1.None : OptV1.Opt Int) = false ∧
    OptV1.Opt.IsJsonNull (OptV1.None : OptV1.Opt Int) = false ∧
    OptV1.Opt.IsNone (OptV1.JsonNull : OptV1.Opt Int) = true ∧
    OptV1.Opt.IsJsonNull (OptV1.JsonNull : OptV1.Opt Int) = true ∧
    OptV1.Opt.IsSome (OptV1.JsonNull : OptV1.Opt Int) = false ∧
    OptV3.Opt.IsSome (OptV3.None : OptV3.Opt Int) = false ∧
    OptV3.Opt.IsNone (OptV3.None : OptV3.Opt Int) = false ∧
    OptV3.Opt.IsNull (OptV3.None : OptV3.Opt Int) = false := by
  decide

/-- C9: the claim says `Scan` never panics and reports unsupported inputs by
an explicit error value.  When the source value's dynamic type is one of the
six supported storage primitives but is not `T` (here `T` = string, source =
int64), the switch arm executes the unchecked type assertion `src.(T)`, which
panics.  A nil source assigns `None`, and a value outside the six supported
types returns the incompatible-type error, as claimed. -/
theorem c9_scan_panics :
    OptV1.Opt.Scan OptV1.castString (Option.some (OptV1.GoDyn.dint64 5)) =
      OptV1.ScanOutcome.panicked ∧
    OptV1.Opt.Scan OptV1.castString Option.none =
      OptV1.ScanOutcome.assigned OptV1.None ∧
    OptV1.Opt.Scan OptV1.castString (Option.some OptV1.GoDyn.dother) =
      OptV1.ScanOutcome.errored GoErr.errSQLScannerIncompatibleDataType :=
  ⟨rfl, rfl, rfl⟩

/-- C4 counterexample: a payload type whose sole value encodes to the `null`
token has a mutually inverse codec, yet decoding the encoding of `Some`
yields the ExplicitNull state, not `Some`, in both variants. -/
theorem c4_counterexample :
    unitDec (unitEnc ()) = Except.ok () ∧
    OptV1.Opt.MarshalJSON unitEnc (OptV1.Some ()) =
      (Option.some "null", Option.none) ∧
    OptV1.Opt.UnmarshalJSON unitDec "null" = Except.ok OptV1.JsonNull ∧
    OptV1.JsonNull ≠ (OptV1.Some () : OptV1.Opt Unit) ∧
    OptV2.Opt.MarshalJSON unitEnc (OptV2.Some ()) = "null" ∧
    OptV2.Opt.UnmarshalJSON unitDec "null" = Except.ok OptV2.Null ∧
    OptV2.Null ≠ (OptV2.Some () : OptV2.Opt Unit) :=
  ⟨rfl, rfl, rfl, by decide, rfl, rfl, by decide⟩

/-- C4 amended: the round-trip law holds in both variants for every payload
value whose encoding is neither the `null` token nor empty: marshalling
`Some v` emits `enc v` and unmarshalling `enc v` returns `Some v`. -/
theorem c4_roundtrip (T : Type) [Inhabited T] (enc : T → String)
    (dec : String → Except GoErr T) (v : T)
    (hinv : dec (enc v) = Except.ok v)
    (hnull : enc v ≠ "null") (hempty : enc v ≠ "") :
    OptV1.Opt.MarshalJSON enc (OptV1.Some v) = (Option.some (enc v), Option.none) ∧
    OptV1.Opt.UnmarshalJSON dec (enc v) = Except.ok (OptV1.Some v) ∧
    OptV2.Opt.MarshalJSON enc (OptV2.Some v) = enc v ∧
    OptV2.Opt.UnmarshalJSON dec (enc v) = Except.ok (OptV2.Some v) := by
  have hlen : ¬((enc v).length ≤ 0) := by
    intro h
    exact hempty (by
      have h0 : (enc v).length = 0 := Nat.le_zero.mp h
      cases henc : enc v with
      | mk l =>
        rw [henc] at h0
        cases l with
        | nil => rfl
        | cons a as => simp [String.length, List.length] at h0)
  refine ⟨rfl, ?_, rfl, ?_⟩
  · unfold OptV1.Opt.UnmarshalJSON
    rw [if_neg hlen, if_neg (by simpa [OptV1.NullBytes] using hnull), hinv]
  · unfold OptV2.Opt.UnmarshalJSON
    rw [if_neg (by simpa [OptV2.NullBytes] using hnull), hinv]

/-- C4 witness: the amended round-trip at the concrete payload 3 with the
integer codec. -/
theorem c4_roundtrip_witness :
    dec3 (intEnc 3) = Except.ok 3 ∧ intEnc 3 ≠ "null" ∧ intEnc 3 ≠ "" ∧
    (OptV1.Opt.MarshalJSON intEnc (OptV1.Some (3 : Int)) =
        (Option.some (intEnc 3), Option.none) ∧
      OptV1.Opt.UnmarshalJSON dec3 (intEnc 3) = Except.ok (OptV1.Some (3 : Int)) ∧
      OptV2.Opt.MarshalJSON intEnc (OptV2.Some (3 : Int)) = intEnc 3 ∧
      OptV2.Opt.UnmarshalJSON dec3 (intEnc 3) = Except.ok (OptV2.Some (3 : Int))) :=
  ⟨by rfl, by decide, by decide,
    c4_roundtrip Int intEnc dec3 3 (by rfl) (by decide) (by decide)⟩

/-- C5 counterexample: `Null` taken in the map variant and `None` taken in
the struct variant both return the zero value with a nil error, not
`ErrNoneValueTaken` (the map variant by its own documentation, the struct
variant because `IsNone` tests `NullState`). -/
theorem c5_counterexample :
    OptV2.Opt.Take (OptV2.Null : OptV2.Opt Int) = (0, Option.none) ∧
    ((0 : Int), (Option.none : Option GoErr)) ≠
      ((0 : Int), Option.some GoErr.errNoneValueTaken) ∧
    OptV1.Opt.Take (OptV1.None : OptV1.Opt Int) = (0, Option.none) := by
  decide

/-- C5 amended: `Some(v).Take()` yields `(v, nil)` in both variants; in the
map variant exactly `None` yields `ErrNoneValueTaken` while `Null` yields the
zero value with no error; in the struct variant as coded exactly the
`JsonNull` state yields the error while `None` yields the stored zero value
with no error. -/
theorem c5_take_amended (T : Type) [Inhabited T] (v : T) :
    OptV1.Opt.Take (OptV1.Some v) = (v, Option.none) ∧
    OptV2.Opt.Take (OptV2.Some v) = (v, Option.none) ∧
    OptV2.Opt.Take (OptV2.None : OptV2.Opt T) =
      (default, Option.some GoErr.errNoneValueTaken) ∧
    OptV1.Opt.Take (OptV1.JsonNull : OptV1.Opt T) =
      (default, Option.some GoErr.errNoneValueTaken) ∧
    OptV1.Opt.Take (OptV1.None : OptV1.Opt T) = (default, Option.none) ∧
    OptV2.Opt.Take (OptV2.Null : OptV2.Opt T) = (default, Option.none) :=
  ⟨rfl, rfl, rfl, rfl, rfl, rfl⟩

/-- C6 counterexample: the map variant has no zero-length branch, so
unmarshalling empty input invokes the payload decoder and returns its error
instead of setting the Absent state with no error. -/
theorem c6_counterexample :
    OptV2.Opt.UnmarshalJSON dec3 "" = Except.error (GoErr.decodeErr "") ∧
    (Except.error (GoErr.decodeErr "") : Except GoErr (OptV2.Opt Int)) ≠
      Except.ok OptV2.None :=
  ⟨rfl, fun h => Except.noConfusion h⟩

/-- C6 amended: the struct variant implements the claimed total three-way
case split (zero-length input yields Absent, the `null` token yields
ExplicitNull, anything else is decoded as `T` with success producing Present
and failure propagating the decoder's error unchanged); the map variant
implements the same split without the zero-length case, so empty input is
handed to the payload decoder like any other non-`null` input. -/
theorem c6_decode_cases (T : Type) [Inhabited T]
    (dec : String → Except GoErr T) (data : String) :
    ((data.length = 0 ∧ OptV1.Opt.UnmarshalJSON dec data = Except.ok OptV1.None) ∨
     (data.length ≠ 0 ∧ data = "null" ∧
       OptV1.Opt.UnmarshalJSON dec data = Except.ok OptV1.JsonNull) ∨
     (data.length ≠ 0 ∧ data ≠ "null" ∧
       ((∃ v, dec data = Except.ok v ∧
           OptV1.Opt.UnmarshalJSON dec data = Except.ok (OptV1.Some v)) ∨
        (∃ e, dec data = Except.error e ∧
           OptV1.Opt.UnmarshalJSON dec data = Except.error e)))) ∧
    ((data = "null" ∧ OptV2.Opt.UnmarshalJSON dec data = Except.ok OptV2.Null) ∨
     (data ≠ "null" ∧
       ((∃ v, dec data = Except.ok v ∧
           OptV2.Opt.UnmarshalJSON dec data = Except.ok (OptV2.Some v)) ∨
        (∃ e, dec data = Except.error e ∧
           OptV2.Opt.UnmarshalJSON dec data = Except.error e)))) := by
  constructor
  · by_cases h0 : data.length = 0
    · exact Or.inl ⟨h0, by
        unfold OptV1.Opt.UnmarshalJSON
        rw [if_pos (Nat.le_zero.mpr h0)]⟩
    · have hlen : ¬(data.length ≤ 0) := fun h => h0 (Nat.le_zero.mp h)
      by_cases hn : data = "null"
      · refine Or.inr (Or.inl ⟨h0, hn, ?_⟩)
        unfold OptV1.Opt.UnmarshalJSON
        rw [if_neg hlen, if_pos (by simpa [OptV1.NullBytes] using hn)]
      · refine Or.inr (Or.inr ⟨h0, hn, ?_⟩)
        cases hd : dec data with
        | ok v =>
          exact Or.inl ⟨v, rfl, by
            unfold OptV1.Opt.UnmarshalJSON
            rw [if_neg hlen, if_neg (by simpa [OptV1.NullBytes] using hn), hd]⟩
        | error e =>
          exact Or.inr ⟨e, rfl, by
            unfold OptV1.Opt.UnmarshalJSON
            rw [if_neg hlen, if_neg (by simpa [OptV1.NullBytes] using hn), hd]⟩
  · by_cases hn : data = "null"
    · exact Or.inl ⟨hn, by
        unfold OptV2.Opt.UnmarshalJSON
        rw [if_pos (by simpa [OptV2.NullBytes] using hn)]⟩
    · refine Or.inr ⟨hn, ?_⟩
      cases hd : dec data with
      | ok v =>
        exact Or.inl ⟨v, rfl, by
          unfold OptV2.Opt.UnmarshalJSON
          rw [if_neg (by simpa [OptV2.NullBytes] using hn), hd]⟩
      | error e =>
        exact Or.inr ⟨e, rfl, by
          unfold OptV2.Opt.UnmarshalJSON
          rw [if_neg (by simpa [OptV2.NullBytes] using hn), hd]⟩

/-- C7 counterexample: the predicate is invoked (once) on an ExplicitNull
receiver in the map variant — against the zero value — and the receiver is
returned unchanged (still Null, not None) when it passes; in the struct
variant the predicate is likewise invoked once on an Absent receiver. -/
theorem c7_counterexample :
    OptV2.Opt.FilterTraced (OptV2.Null : OptV2.Opt Int) (fun _ => true) =
      (OptV2.Null, 1) ∧
    (OptV2.Null : OptV2.Opt Int) ≠ OptV2.None ∧
    OptV1.Opt.FilterTraced (OptV1.None : OptV1.Opt Int) (fun _ => true) =
      (OptV1.None, 1) := by
  decide

/-- C7 amended: on a Present receiver both variants invoke the predicate
exactly once on the payload and return the receiver when it passes, else
`None`.  The struct variant returns `None` with zero invocations on an
ExplicitNull receiver but invokes the predicate once on the zero value of an
Absent receiver (returning an Absent result either way); the map variant
returns `None` with zero invocations on an Absent receiver but invokes the
predicate once on the zero value of an ExplicitNull receiver, returning the
Null receiver itself when the predicate passes. -/
theorem c7_filter_amended (T : Type) [Inhabited T] (v : T) (p : T → Bool) :
    OptV1.Opt.FilterTraced (OptV1.Some v) p =
      (if p v then (OptV1.Some v, 1) else (OptV1.None, 1)) ∧
    OptV1.Opt.FilterTraced (OptV1.JsonNull : OptV1.Opt T) p = (OptV1.None, 0) ∧
    OptV1.Opt.FilterTraced (OptV1.None : OptV1.Opt T) p = (OptV1.None, 1) ∧
    OptV2.Opt.FilterTraced (OptV2.Some v) p =
      (if p v then (OptV2.Some v, 1) else (OptV2.None, 1)) ∧
    OptV2.Opt.FilterTraced (OptV2.None : OptV2.Opt T) p = (OptV2.None, 0) ∧
    OptV2.Opt.FilterTraced (OptV2.Null : OptV2.Opt T) p =
      (if p default then (OptV2.Null, 1) else (OptV2.None, 1)) := by
  refine ⟨?_, rfl, ?_, ?_, rfl, ?_⟩
  · cases hp : p v <;>
      simp [OptV1.Opt.FilterTraced, OptV1.Opt.IsNone, OptV1.Opt.IsJsonNull,
        OptV1.Some, hp]
  · cases hp : p (default : T) <;>
      simp [OptV1.Opt.FilterTraced, OptV1.Opt.IsNone, OptV1.Opt.IsJsonNull,
        OptV1.None, hp]
  · cases hp : p v <;>
      simp [OptV2.Opt.FilterTraced, OptV2.Opt.IsNone, OptV2.Opt.Unwrap,
        OptV2.Opt.IsNull, OptV2.Opt.getTrue, OptV2.len, OptV2.Some, hp]
  · cases hp : p (default : T) <;>
      simp [OptV2.Opt.FilterTraced, OptV2.Opt.IsNone, OptV2.Opt.Unwrap,
        OptV2.Opt.IsNull, OptV2.Opt.getTrue, OptV2.len, OptV2.Null, hp]

/-- C8 counterexample: the fallback is invoked zero times — not once — on an
ExplicitNull receiver in the map variant (`TakeOrElse` returns the zero
value) and on an Absent receiver in the struct variant (it returns the
stored zero value). -/
theorem c8_counterexample :
    OptV2.Opt.TakeOrElseTraced (OptV2.Null : OptV2.Opt Int) (fun _ => 7) =
      (0, 0) ∧
    ((0 : Int), (0 : Nat)) ≠ ((7 : Int), (1 : Nat)) ∧
    OptV1.Opt.TakeOrElseTraced (OptV1.None : OptV1.Opt Int) (fun _ => 7) =
      (0, 0) := by
  decide

/-- C8 amended: on a Present receiver the fallback is invoked zero times and
the payload returned, in both variants.  The struct variant invokes the
fallback exactly once on an ExplicitNull receiver but zero times on an
Absent one (returning the stored zero value); the map variant invokes it
exactly once on an Absent receiver but zero times on an ExplicitNull one
(returning the zero value); `OrElse` of the struct variant behaves like its
`TakeOrElse`. -/
theorem c8_laziness_amended (T : Type) [Inhabited T] (v : T)
    (f : Unit → T) (g : Unit → OptV1.Opt T) :
    OptV1.Opt.TakeOrElseTraced (OptV1.Some v) f = (v, 0) ∧
    OptV1.Opt.TakeOrElseTraced (OptV1.JsonNull : OptV1.Opt T) f = (f (), 1) ∧
    OptV1.Opt.TakeOrElseTraced (OptV1.None : OptV1.Opt T) f = (default, 0) ∧
    OptV1.Opt.OrElseTraced (OptV1.Some v) g = (OptV1.Some v, 0) ∧
    OptV1.Opt.OrElseTraced (OptV1.JsonNull : OptV1.Opt T) g = (g (), 1) ∧
    OptV1.Opt.OrElseTraced (OptV1.None : OptV1.Opt T) g = (OptV1.None, 0) ∧
    OptV2.Opt.TakeOrElseTraced (OptV2.Some v) f = (v, 0) ∧
    OptV2.Opt.TakeOrElseTraced (OptV2.None : OptV2.Opt T) f = (f (), 1) ∧
    OptV2.Opt.TakeOrElseTraced (OptV2.Null : OptV2.Opt T) f = (default, 0) :=
  ⟨rfl, rfl, rfl, rfl, rfl, rfl, rfl, rfl, rfl⟩

/-- C10: every `jsonoptional` Option reachable through the public
constructors or through `UnmarshalJSON` carries at most one of the two
reserved map keys (`wf`), well-formedness rules out `IsSome` and `IsNull`
holding together, and the shape is preserved by the combinators that return
an Option (`Filter` returns the receiver or a fresh `None`; `Or` returns the
receiver or the caller-supplied fallback). -/
theorem c10_wf_invariant (T : Type) [Inhabited T] (v : T) (cond : Bool)
    (ptr : Option T) (p : T → Bool) (o fb : OptV2.Opt T)
    (dec : String → Except GoErr T) (data : String)
    (ho : OptV2.Opt.wf o = true) (hfb : OptV2.Opt.wf fb = true) :
    OptV2.Opt.wf (OptV2.Some v) = true ∧
    OptV2.Opt.wf (OptV2.None : OptV2.Opt T) = true ∧
    OptV2.Opt.wf (OptV2.Null : OptV2.Opt T) = true ∧
    OptV2.Opt.wf (OptV2.NullIf v cond) = true ∧
    OptV2.Opt.wf (OptV2.FromNillable ptr) = true ∧
    OptV2.Opt.wf (OptV2.PtrFromNillable ptr) = true ∧
    (∀ o2 : OptV2.Opt T,
      OptV2.Opt.UnmarshalJSON dec data = Except.ok o2 → OptV2.Opt.wf o2 = true) ∧
    OptV2.Opt.wf (OptV2.Opt.Filter o p) = true ∧
    OptV2.Opt.wf (OptV2.Opt.Or o fb) = true ∧
    ¬(OptV2.Opt.IsSome o = true ∧ OptV2.Opt.IsNull o = true) := by
  refine ⟨rfl, rfl, rfl, ?_, ?_, ?_, ?_, ?_, ?_, ?_⟩
  · cases cond <;> rfl
  · cases ptr <;> rfl
  · cases ptr <;> rfl
  · intro o2 h
    unfold OptV2.Opt.UnmarshalJSON at h
    by_cases hn : data = OptV2.NullBytes
    · rw [if_pos hn] at h
      injection h with h
      exact h ▸ rfl
    · rw [if_neg hn] at h
      cases hd : dec data with
      | ok w =>
        rw [hd] at h
        injection h with h
        exact h ▸ rfl
      | error e =>
        rw [hd] at h
        exact Except.noConfusion h
  · unfold OptV2.Opt.Filter
    split
    · rfl
    · exact ho
  · unfold OptV2.Opt.Or
    split
    · exact hfb
    · exact ho
  · rintro ⟨hs, hn⟩
    rcases o with ⟨t, f⟩
    cases t <;> cases f <;>
      simp_all [OptV2.Opt.IsSome, OptV2.Opt.IsNull, OptV2.Opt.wf, OptV2.len]

/-- C10 witness: the reachable-shape invariant instantiated at concrete
integer Options. -/
theorem c10_wf_invariant_witness :
    OptV2.Opt.wf (OptV2.Some (3 : Int)) = true ∧
    OptV2.Opt.wf (OptV2.None : OptV2.Opt Int) = true ∧
    OptV2.Opt.wf (OptV2.Null : OptV2.Opt Int) = true ∧
    OptV2.Opt.wf (OptV2.NullIf (3 : Int) true) = true ∧
    OptV2.Opt.wf (OptV2.FromNillable (Option.some (4 : Int))) = true ∧
    OptV2.Opt.wf (OptV2.PtrFromNillable (Option.some (4 : Int))) = true ∧
    (∀ o2 : OptV2.Opt Int,
      OptV2.Opt.UnmarshalJSON dec3 "x" = Except.ok o2 → OptV2.Opt.wf o2 = true) ∧
    OptV2.Opt.wf (OptV2.Opt.Filter (OptV2.Some (5 : Int)) (fun _ => true)) = true ∧
    OptV2.Opt.wf (OptV2.Opt.Or (OptV2.Some (5 : Int)) (OptV2.None : OptV2.Opt Int)) = true ∧
    ¬(OptV2.Opt.IsSome (OptV2.Some (5 : Int)) = true ∧
      OptV2.Opt.IsNull (OptV2.Some (5 : Int)) = true) :=
  c10_wf_invariant Int 3 true (Option.some 4) (fun _ => true)
    (OptV2.Some 5) OptV2.None dec3 "x" (by decide) (by decide)

/-- C5 witness: the amended Take behavior at concrete integer Options. -/
theorem c5_take_amended_witness :
    OptV1.Opt.Take (OptV1.Some (3 : Int)) = (3, Option.none) ∧
    OptV2.Opt.Take (OptV2.Some (3 : Int)) = (3, Option.none) ∧
    OptV2.Opt.Take (OptV2.None : OptV2.Opt Int) =
      (default, Option.some GoErr.errNoneValueTaken) ∧
    OptV1.Opt.Take (OptV1.JsonNull : OptV1.Opt Int) =
      (default, Option.some GoErr.errNoneValueTaken) ∧
    OptV1.Opt.Take (OptV1.None : OptV1.Opt Int) = (default, Option.none) ∧
    OptV2.Opt.Take (OptV2.Null : OptV2.Opt Int) = (default, Option.none) :=
  c5_take_amended Int 3

/-- C6 witness: the decode case split at the concrete input `"3"` with the
integer decoder. -/
theorem c6_decode_cases_witness :
    ((("3" : String).length = 0 ∧
       OptV1.Opt.UnmarshalJSON dec3 "3" = Except.ok OptV1.None) ∨
     (("3" : String).length ≠ 0 ∧ ("3" : String) = "null" ∧
       OptV1.Opt.UnmarshalJSON dec3 "3" = Except.ok OptV1.JsonNull) ∨
     (("3" : String).length ≠ 0 ∧ ("3" : String) ≠ "null" ∧
       ((∃ v, dec3 "3" = Except.ok v ∧
           OptV1.Opt.UnmarshalJSON dec3 "3" = Except.ok (OptV1.Some v)) ∨
        (∃ e, dec3 "3" = Except.error e ∧
           OptV1.Opt.UnmarshalJSON dec3 "3" = Except.error e)))) ∧
    ((("3" : String) = "null" ∧
       OptV2.Opt.UnmarshalJSON dec3 "3" = Except.ok OptV2.Null) ∨
     (("3" : String) ≠ "null" ∧
       ((∃ v, dec3 "3" = Except.ok v ∧
           OptV2.Opt.UnmarshalJSON dec3 "3" = Except.ok (OptV2.Some v)) ∨
        (∃ e, dec3 "3" = Except.error e ∧
           OptV2.Opt.UnmarshalJSON dec3 "3" = Except.error e)))) :=
  c6_decode_cases Int dec3 "3"

/-- C7 witness: the amended Filter behavior at concrete integer Options with
an always-true predicate. -/
theorem c7_filter_amended_witness :
    OptV1.Opt.FilterTraced (OptV1.Some (3 : Int)) (fun _ => true) =
      (OptV1.Some 3, 1) ∧
    OptV1.Opt.FilterTraced (OptV1.JsonNull : OptV1.Opt Int) (fun _ => true) =
      (OptV1.None, 0) ∧
    OptV1.Opt.FilterTraced (OptV1.None : OptV1.Opt Int) (fun _ => true) =
      (OptV1.None, 1) ∧
    OptV2.Opt.FilterTraced (OptV2.Some (3 : Int)) (fun _ => true) =
      (OptV2.Some 3, 1) ∧
    OptV2.Opt.FilterTraced (OptV2.None : OptV2.Opt Int) (fun _ => true) =
      (OptV2.None, 0) ∧
    OptV2.Opt.FilterTraced (OptV2.Null : OptV2.Opt Int) (fun _ => true) =
      (OptV2.Null, 1) :=
  c7_filter_amended Int 3 (fun _ => true)

/-- C8 witness: the amended laziness counts at concrete integer Options. -/
theorem c8_laziness_amended_witness :
    OptV1.Opt.TakeOrElseTraced (OptV1.Some (3 : Int)) (fun _ => 9) = (3, 0) ∧
    OptV1.Opt.TakeOrElseTraced (OptV1.JsonNull : OptV1.Opt Int) (fun _ => 9) =
      (9, 1) ∧
    OptV1.Opt.TakeOrElseTraced (OptV1.None : OptV1.Opt Int) (fun _ => 9) =
      (default, 0) ∧
    OptV1.Opt.OrElseTraced (OptV1.Some (3 : Int)) (fun _ => OptV1.Some 9) =
      (OptV1.Some 3, 0) ∧
    OptV1.Opt.OrElseTraced (OptV1.JsonNull : OptV1.Opt Int) (fun _ => OptV1.Some 9) =
      (OptV1.Some 9, 1) ∧
    OptV1.Opt.OrElseTraced (OptV1.None : OptV1.Opt Int) (fun _ => OptV1.Some 9) =
      (OptV1.None, 0) ∧
    OptV2.Opt.TakeOrElseTraced (OptV2.Some (3 : Int)) (fun _ => 9) = (3, 0) ∧
    OptV2.Opt.TakeOrElseTraced (OptV2.None : OptV2.Opt Int) (fun _ => 9) =
      (9, 1) ∧
    OptV2.Opt.TakeOrElseTraced (OptV2.Null : OptV2.Opt Int) (fun _ => 9) =
      (default, 0) :=
  c8_laziness_amended Int 3 (fun _ => 9) (fun _ => OptV1.Some 9)
